import Mathlib

/-!
Verification of the prompt-orchestration and resilient-JSON-analysis pipeline
of the AI investment analyzer (src/ai_analysis.py), as a shallow embedding.

Python strings are modelled as lists of Unicode code points (`PyText`) where
code-point-level behaviour matters (the sanitizer, the credential check), and
as Lean `String`s where only character content matters (the JSON layer).
Python numbers are modelled as exact rationals; `int()` truncation and
`round()` (nearest, ties to even) are modelled explicitly.  Fallible code is
modelled with `Option`/`Except`, and the remote LLM collaborator is an
explicit oracle value (`LLMOutcome`): `raise` for a call that throws,
`ok` for a transport response carrying an optional pre-parsed payload and an
optional raw text body.
-/

namespace AIInvest

attribute [local semireducible] Rat.mul Rat.inv Rat.add Rat.sub

/-- A Python `str` as its list of Unicode code points. -/
abbrev PyText := List Nat

/-- The Python values `sanitize_text` is exercised with: `None`, strings and
integers (`str(s)` stringifies any of them). -/
inductive PyVal where
  | none
  | str (s : PyText)
  | int (n : Int)

/-- Python truthiness for the values above (`if not s`). -/
def pyFalsy : PyVal → Bool
  | .none => true
  | .str s => s.isEmpty
  | .int n => n == 0

/-- Code points of the decimal rendering of a natural number. -/
def natText (n : Nat) : PyText := (Nat.toDigits 10 n).map Char.toNat

/-- Python `str(s)` for the modelled values. -/
def pyStrOf : PyVal → PyText
  | .none => [78, 111, 110, 101]
  | .str s => s
  | .int n => if n < 0 then 45 :: natText n.natAbs else natText n.toNat

/-- All code points are ASCII (below 128). -/
def isAsciiL (s : PyText) : Bool := s.all (fun c => c < 128)

/-- The fixed smart-punctuation table of `sanitize_text` (src/ai_analysis.py,
lines 30-39): em dash, en dash, curly single/double quotes, ellipsis,
non-breaking space, each with its ASCII replacement. -/
def replacementTable : List (Nat × PyText) :=
  [(0x2014, [45]), (0x2013, [45]), (0x2018, [39]), (0x2019, [39]),
   (0x201C, [34]), (0x201D, [34]), (0x2026, [46, 46, 46]), (0x00A0, [32])]

/-- Python `s.replace(u, r)` for a single-code-point needle `u`. -/
def replaceChar (u : Nat) (r : PyText) (s : PyText) : PyText :=
  s.flatMap (fun c => if c = u then r else [c])

/-- The replacement loop of `sanitize_text` (lines 41-42). -/
def applyReplacements (s : PyText) : PyText :=
  replacementTable.foldl (fun acc p => replaceChar p.1 p.2 acc) s

/-- One lowercase hex digit. -/
def hexDigit (n : Nat) : Nat := if n < 10 then 48 + n else 87 + n

/-- The `w` lowercase hex digits of `c`, most significant first. -/
def hexPad (w c : Nat) : PyText :=
  (List.range w).map (fun i => hexDigit (c / 16 ^ (w - 1 - i) % 16))

/-- Python `'backslashreplace'` escaping of one code point when encoding to
ASCII: code points below 128 pass through, the rest become `\xhh`, `\uhhhh`
or `\Uhhhhhhhh`. -/
def backslashEscape (c : Nat) : PyText :=
  if c < 128 then [c]
  else if c < 256 then 92 :: 120 :: hexPad 2 c
  else if c < 65536 then 92 :: 117 :: hexPad 4 c
  else 92 :: 85 :: hexPad 8 c

/-- Python `s.encode('ascii', 'backslashreplace').decode('ascii')` (line 45). -/
def backslashReplace (s : PyText) : PyText := s.flatMap backslashEscape

/-- Model of `sanitize_text` (src/ai_analysis.py, lines 21-45).  NFKC normalization is
a parameter: the theorems only use the Unicode-standard fact that NFKC is the
identity on ASCII text, stated as a hypothesis where needed. -/
def sanitize_text (nfkc : PyText → PyText) (v : PyVal) : PyText :=
  if pyFalsy v then []
  else backslashReplace (applyReplacements (nfkc (pyStrOf v)))

/-- The three construction-time failures of `AIAnalyzer.__init__`
(src/ai_analysis.py, lines 58-83). -/
inductive InitErr where
  | notSet
  | dashInKey
  | nonAsciiKey
deriving DecidableEq

/-- Model of `AIAnalyzer.__init__` on the value of `OPENAI_API_KEY` (lines 58-83):
missing or empty key raises "is not set"; a key that fails ASCII encoding
raises the em/en-dash-specific error when it contains U+2014 or U+2013 and
the generic non-ASCII error otherwise; an ASCII key constructs the client. -/
def initAnalyzer (key : Option PyText) : Except InitErr Unit :=
  match key with
  | Option.none => .error .notSet
  | Option.some k =>
    if k.isEmpty then .error .notSet
    else if isAsciiL k then .ok ()
    else if 0x2014 ∈ k ∨ 0x2013 ∈ k then .error .dashInKey
    else .error .nonAsciiKey

/-- Parsed JSON values (Python objects produced by `json.loads`).  Python
floats and ints are both modelled as exact rationals. -/
inductive Json where
  | null
  | bool (b : Bool)
  | num (q : ℚ)
  | str (s : String)
  | arr (elems : List Json)
  | obj (fields : List (String × Json))

mutual

/-- Decidable equality of JSON values (written out by hand because automatic
derivation does not handle the nesting through lists). -/
def decEqJ : (a b : Json) → Decidable (a = b)
  | .null, .null => isTrue rfl
  | .null, .bool _ => isFalse (fun h => Json.noConfusion h)
  | .null, .num _ => isFalse (fun h => Json.noConfusion h)
  | .null, .str _ => isFalse (fun h => Json.noConfusion h)
  | .null, .arr _ => isFalse (fun h => Json.noConfusion h)
  | .null, .obj _ => isFalse (fun h => Json.noConfusion h)
  | .bool _, .null => isFalse (fun h => Json.noConfusion h)
  | .bool a, .bool b =>
    match decEq a b with
    | isTrue h => isTrue (congrArg Json.bool h)
    | isFalse h => isFalse (fun he => h (Json.bool.inj he))
  | .bool _, .num _ => isFalse (fun h => Json.noConfusion h)
  | .bool _, .str _ => isFalse (fun h => Json.noConfusion h)
  | .bool _, .arr _ => isFalse (fun h => Json.noConfusion h)
  | .bool _, .obj _ => isFalse (fun h => Json.noConfusion h)
  | .num _, .null => isFalse (fun h => Json.noConfusion h)
  | .num _, .bool _ => isFalse (fun h => Json.noConfusion h)
  | .num a, .num b =>
    match decEq a b with
    | isTrue h => isTrue (congrArg Json.num h)
    | isFalse h => isFalse (fun he => h (Json.num.inj he))
  | .num _, .str _ => isFalse (fun h => Json.noConfusion h)
  | .num _, .arr _ => isFalse (fun h => Json.noConfusion h)
  | .num _, .obj _ => isFalse (fun h => Json.noConfusion h)
  | .str _, .null => isFalse (fun h => Json.noConfusion h)
  | .str _, .bool _ => isFalse (fun h => Json.noConfusion h)
  | .str _, .num _ => isFalse (fun h => Json.noConfusion h)
  | .str a, .str b =>
    match decEq a b with
    | isTrue h => isTrue (congrArg Json.str h)
    | isFalse h => isFalse (fun he => h (Json.str.inj he))
  | .str _, .arr _ => isFalse (fun h => Json.noConfusion h)
  | .str _, .obj _ => isFalse (fun h => Json.noConfusion h)
  | .arr _, .null => isFalse (fun h => Json.noConfusion h)
  | .arr _, .bool _ => isFalse (fun h => Json.noConfusion h)
  | .arr _, .num _ => isFalse (fun h => Json.noConfusion h)
  | .arr _, .str _ => isFalse (fun h => Json.noConfusion h)
  | .arr xs, .arr ys =>
    match decEqLJ xs ys with
    | isTrue h => isTrue (congrArg Json.arr h)
    | isFalse h => isFalse (fun he => h (Json.arr.inj he))
  | .arr _, .obj _ => isFalse (fun h => Json.noConfusion h)
  | .obj _, .null => isFalse (fun h => Json.noConfusion h)
  | .obj _, .bool _ => isFalse (fun h => Json.noConfusion h)
  | .obj _, .num _ => isFalse (fun h => Json.noConfusion h)
  | .obj _, .str _ => isFalse (fun h => Json.noConfusion h)
  | .obj _, .arr _ => isFalse (fun h => Json.noConfusion h)
  | .obj fs, .obj gs =>
    match decEqFJ fs gs with
    | isTrue h => isTrue (congrArg Json.obj h)
    | isFalse h => isFalse (fun he => h (Json.obj.inj he))

/-- Decidable equality of JSON value lists. -/
def decEqLJ : (xs ys : List Json) → Decidable (xs = ys)
  | [], [] => isTrue rfl
  | [], _ :: _ => isFalse (fun h => List.noConfusion h)
  | _ :: _, [] => isFalse (fun h => List.noConfusion h)
  | a :: as, b :: bs =>
    match decEqJ a b, decEqLJ as bs with
    | isTrue h1, isTrue h2 => isTrue (h1 ▸ h2 ▸ rfl)
    | isFalse h1, _ => isFalse (fun h => h1 (List.cons.inj h).1)
    | _, isFalse h2 => isFalse (fun h => h2 (List.cons.inj h).2)

/-- Decidable equality of JSON field lists. -/
def decEqFJ : (fs gs : List (String × Json)) → Decidable (fs = gs)
  | [], [] => isTrue rfl
  | [], _ :: _ => isFalse (fun h => List.noConfusion h)
  | _ :: _, [] => isFalse (fun h => List.noConfusion h)
  | (k, v) :: t, (k', v') :: t' =>
    match decEq k k', decEqJ v v', decEqFJ t t' with
    | isTrue h1, isTrue h2, isTrue h3 => isTrue (by rw [h1, h2, h3])
    | isFalse h1, _, _ =>
      isFalse (fun h => h1 (congrArg Prod.fst (List.cons.inj h).1))
    | _, isFalse h2, _ =>
      isFalse (fun h => h2 (congrArg Prod.snd (List.cons.inj h).1))
    | _, _, isFalse h3 => isFalse (fun h => h3 (List.cons.inj h).2)

end

instance : DecidableEq Json := decEqJ

/-- Python truthiness of a parsed JSON value (`if result:`). -/
def jsonTruthy : Json → Bool
  | .null => false
  | .bool b => b
  | .num q => !(q == 0)
  | .str s => !s.isEmpty
  | .arr xs => !xs.isEmpty
  | .obj fs => !fs.isEmpty

/-- First-match association lookup, the read side of a Python dict. -/
def lookupJ (fs : List (String × Json)) (k : String) : Option Json :=
  match fs with
  | [] => Option.none
  | (k', v) :: t => if k' == k then some v else lookupJ t k

/-- Python `d[k]` / `d.get(k)` on a mapping value; `none` on non-mappings. -/
def objGet (j : Json) (k : String) : Option Json :=
  match j with
  | .obj fs => lookupJ fs k
  | _ => Option.none

/-- Python `d.get(k, default)` on a known mapping. -/
def dictGetD (fs : List (String × Json)) (k : String) (d : Json) : Json :=
  (lookupJ fs k).getD d

/-- Two-level lookup into nested mappings. -/
def getIn (j : Json) (k1 k2 : String) : Option Json :=
  (objGet j k1).bind (fun x => objGet x k2)

/-- Keys of a mapping value, in insertion order. -/
def jsonKeys : Json → List String
  | .obj fs => fs.map Prod.fst
  | _ => []

/-- Python dict insertion: replace in place when the key exists (keeping the
original position), append otherwise. -/
def upsert : List (String × Json) → String → Json → List (String × Json)
  | [], k, v => [(k, v)]
  | (k', v') :: t, k, v =>
    if k' == k then (k', v) :: t else (k', v') :: upsert t k v

/-- JSON's insignificant whitespace characters (RFC 8259 / `json.decoder`). -/
def jsonWsChar (c : Char) : Bool :=
  c == ' ' || c == '\t' || c == '\n' || c == '\r'

/-- Skip insignificant whitespace. -/
def skipWs (cs : List Char) : List Char := cs.dropWhile jsonWsChar

/-- Whitespace stripped by `str.strip()`; the model keeps the six ASCII
whitespace characters (the rarer control-character whitespace behaves
identically in `_parse_openai_json`, not being a JSON value start). -/
def stripWsChar (c : Char) : Bool :=
  c == ' ' || c == '\t' || c == '\n' || c == '\r' ||
  c == Char.ofNat 11 || c == Char.ofNat 12

/-- Python `s.strip()` as a character list. -/
def pyStrip (s : String) : List Char :=
  (((s.data.dropWhile stripWsChar).reverse.dropWhile stripWsChar)).reverse

/-- Consume an expected literal character sequence. -/
def dropLit : List Char → List Char → Option (List Char)
  | [], cs => some cs
  | p :: ps, c :: cs => if c == p then dropLit ps cs else Option.none
  | _ :: _, [] => Option.none

/-- Value of one hex digit, accepting both cases. -/
def hexVal (c : Char) : Option Nat :=
  if c.isDigit then some (c.toNat - 48)
  else if 'a' ≤ c && c ≤ 'f' then some (c.toNat - 87)
  else if 'A' ≤ c && c ≤ 'F' then some (c.toNat - 55)
  else Option.none

/-- JSON string body after the opening quote: plain characters, the
single-character escapes and `\uXXXX`; unescaped control characters are
rejected as `json.loads` does.  Fuel bounds the recursion. -/
def parseStrChars : Nat → List Char → List Char → Option (String × List Char)
  | 0, _, _ => Option.none
  | _ + 1, [], _ => Option.none
  | fuel + 1, c :: rest, acc =>
    if c == '"' then some (String.mk acc.reverse, rest)
    else if c == '\\' then
      match rest with
      | [] => Option.none
      | e :: rest2 =>
        if e == '"' then parseStrChars fuel rest2 ('"' :: acc)
        else if e == '\\' then parseStrChars fuel rest2 ('\\' :: acc)
        else if e == '/' then parseStrChars fuel rest2 ('/' :: acc)
        else if e == 'b' then parseStrChars fuel rest2 (Char.ofNat 8 :: acc)
        else if e == 'f' then parseStrChars fuel rest2 (Char.ofNat 12 :: acc)
        else if e == 'n' then parseStrChars fuel rest2 ('\n' :: acc)
        else if e == 'r' then parseStrChars fuel rest2 ('\r' :: acc)
        else if e == 't' then parseStrChars fuel rest2 ('\t' :: acc)
        else if e == 'u' then
          match rest2 with
          | h1 :: h2 :: h3 :: h4 :: rest3 =>
            match hexVal h1, hexVal h2, hexVal h3, hexVal h4 with
            | some a, some b, some c2, some d =>
              parseStrChars fuel rest3
                (Char.ofNat (((a * 16 + b) * 16 + c2) * 16 + d) :: acc)
            | _, _, _, _ => Option.none
          | _ => Option.none
        else Option.none
    else if c.toNat < 32 then Option.none
    else parseStrChars fuel rest (c :: acc)

/-- Leading run of decimal digits. -/
def takeDigits (cs : List Char) : List Char × List Char := cs.span Char.isDigit

/-- Numeric value of a digit run. -/
def digitsToNat (ds : List Char) : Nat :=
  ds.foldl (fun a c => a * 10 + (c.toNat - 48)) 0

/-- Optional fraction part: `some (digits, rest)`, failing on a bare dot. -/
def parseFrac : List Char → Option (List Char × List Char)
  | '.' :: t =>
    match takeDigits t with
    | ([], _) => Option.none
    | (ds, r) => some (ds, r)
  | cs => some ([], cs)

/-- Optional exponent part: `some (exponent, rest)`. -/
def parseExp : List Char → Option (Int × List Char)
  | [] => some (0, [])
  | c :: t =>
    if c == 'e' || c == 'E' then
      match
        (match t with
         | '+' :: u => ((1 : Int), u)
         | '-' :: u => ((-1 : Int), u)
         | _ => ((1 : Int), t)) with
      | (sgn, t2) =>
        match takeDigits t2 with
        | ([], _) => Option.none
        | (ds, r) => some (sgn * (digitsToNat ds : Int), r)
    else some (0, c :: t)

/-- A JSON number per RFC 8259: optional minus, integer part without leading
zeros, optional fraction and exponent; its exact rational value. -/
def parseNum (cs : List Char) : Option (ℚ × List Char) :=
  match (match cs with
         | '-' :: t => (true, t)
         | _ => (false, cs)) with
  | (neg, cs1) =>
    match takeDigits cs1 with
    | ([], _) => Option.none
    | (ip, cs2) =>
      match ip, parseFrac cs2 with
      | '0' :: _ :: _, _ => Option.none
      | _, Option.none => Option.none
      | _, some (fp, cs3) =>
        match parseExp cs3 with
        | Option.none => Option.none
        | some (ex, cs4) =>
          let mant : ℚ := (digitsToNat (ip ++ fp) : ℚ)
          let mag : ℚ := mant * (10 : ℚ) ^ (ex - (fp.length : Int))
          some (if neg then -mag else mag, cs4)

mutual

/-- One JSON value; fuel bounds the recursion depth (one unit per consumed
structural character, so `length + 1` fuel always suffices). -/
def parseVal : Nat → List Char → Option (Json × List Char)
  | 0, _ => Option.none
  | fuel + 1, cs =>
    match cs with
    | [] => Option.none
    | c :: rest =>
      if c == Char.ofNat 123 then
        match skipWs rest with
        | [] => Option.none
        | c2 :: rest2 =>
          if c2 == Char.ofNat 125 then some (.obj [], rest2)
          else parseMembers fuel (c2 :: rest2) []
      else if c == '[' then
        match skipWs rest with
        | [] => Option.none
        | c2 :: rest2 =>
          if c2 == ']' then some (.arr [], rest2)
          else parseElems fuel (c2 :: rest2) []
      else if c == '"' then
        match parseStrChars (rest.length + 1) rest [] with
        | some (s, r) => some (.str s, r)
        | Option.none => Option.none
      else if c == 't' then
        match dropLit ['r', 'u', 'e'] rest with
        | some r => some (.bool true, r)
        | Option.none => Option.none
      else if c == 'f' then
        match dropLit ['a', 'l', 's', 'e'] rest with
        | some r => some (.bool false, r)
        | Option.none => Option.none
      else if c == 'n' then
        match dropLit ['u', 'l', 'l'] rest with
        | some r => some (.null, r)
        | Option.none => Option.none
      else if c == '-' || c.isDigit then
        match parseNum (c :: rest) with
        | some (q, r) => some (.num q, r)
        | Option.none => Option.none
      else Option.none

/-- Array elements after the first element's start, accumulating in reverse. -/
def parseElems : Nat → List Char → List Json → Option (Json × List Char)
  | 0, _, _ => Option.none
  | fuel + 1, cs, acc =>
    match parseVal fuel cs with
    | Option.none => Option.none
    | some (v, r) =>
      match skipWs r with
      | ',' :: r2 => parseElems fuel (skipWs r2) (v :: acc)
      | ']' :: r2 => some (.arr (v :: acc).reverse, r2)
      | _ => Option.none

/-- Object members from a key start, accumulating with dict semantics. -/
def parseMembers :
    Nat → List Char → List (String × Json) → Option (Json × List Char)
  | 0, _, _ => Option.none
  | fuel + 1, cs, acc =>
    match cs with
    | [] => Option.none
    | c :: rest =>
      if c == '"' then
        match parseStrChars (rest.length + 1) rest [] with
        | some (k, r) =>
          match skipWs r with
          | ':' :: r2 =>
            match parseVal fuel (skipWs r2) with
            | some (v, r3) =>
              match skipWs r3 with
              | ',' :: r4 => parseMembers fuel (skipWs r4) (upsert acc k v)
              | c5 :: r5 =>
                if c5 == Char.ofNat 125 then some (.obj (upsert acc k v), r5)
                else Option.none
              | [] => Option.none
            | Option.none => Option.none
          | _ => Option.none
        | Option.none => Option.none
      else Option.none

end

/-- Model of `json.loads`: one JSON value surrounded by optional whitespace; any
failure (including trailing garbage) is a decode error, `none`. -/
def jsonLoads (s : String) : Option Json :=
  match parseVal (s.length + 1) (skipWs s.data) with
  | some (v, r) => if (skipWs r).isEmpty then some v else Option.none
  | Option.none => Option.none

/-- One remote transport response as seen by `_parse_openai_json`: the
message's optional pre-parsed payload and its optional text content (content
that is not a string is routed exactly like `None` by the `isinstance`
check, so it is modelled as `none`). -/
structure LLMResponse where
  parsed : Option Json
  content : Option String

/-- Model of `AIAnalyzer._parse_openai_json` (src/ai_analysis.py, lines 337-348):
prefer the pre-parsed payload; otherwise parse a non-blank text body as
JSON, mapping decode failure (and a blank or missing body) to `{}`. -/
def parseOpenaiJson (r : LLMResponse) : Json :=
  match r.parsed with
  | some p => p
  | Option.none =>
    match r.content with
    | some s =>
      if (pyStrip s).isEmpty then Json.obj []
      else
        match jsonLoads s with
        | some v => v
        | Option.none => Json.obj []
    | Option.none => Json.obj []

/-- Outcome of one remote LLM call: `raise` when the call (or the access to
the response structure) throws, `ok` when it returns a transport response. -/
inductive LLMOutcome where
  | raise
  | ok (r : LLMResponse)

/-- The outcomes of the three sequential LLM calls of one stock-mode
invocation (AI-strategy, investment-recommendation, AI-story). -/
structure LLMCollab where
  strategyCall : LLMOutcome
  recommendationCall : LLMOutcome
  storyCall : LLMOutcome

/-- The company context dict built by `_prepare_company_context`
(src/ai_analysis.py, lines 350-363).  Values other than the symbol come from
the raw info mapping and may be arbitrary JSON values. -/
structure CompanyContext where
  symbol : String
  name : Json
  sector : Json
  industry : Json
  business_summary : Json
  market_cap : Json
  employees : Json
  revenue : Json
  website : Json
  country : Json

/-- Model of `_prepare_company_context` (lines 350-363): each field is a `.get` on
the raw info mapping with the documented default. -/
def prepareCompanyContext (symbol : String) (info : List (String × Json)) :
    CompanyContext where
  symbol := symbol
  name := dictGetD info "longName" (.str "Unknown")
  sector := dictGetD info "sector" (.str "Unknown")
  industry := dictGetD info "industry" (.str "Unknown")
  business_summary := dictGetD info "longBusinessSummary" (.str "")
  market_cap := dictGetD info "marketCap" (.num 0)
  employees := dictGetD info "fullTimeEmployees" (.num 0)
  revenue := dictGetD info "totalRevenue" (.num 0)
  website := dictGetD info "website" (.str "")
  country := dictGetD info "country" (.str "Unknown")

/-- Numeric value of a JSON value in a Python arithmetic or format context
(`bool` is an `int` subtype in Python); `none` marks a `TypeError`. -/
def jNumQ : Json → Option ℚ
  | .num q => some q
  | .bool b => some (if b then 1 else 0)
  | _ => Option.none

/-- The value supports Python numeric formatting (`:.1f`, `:,`). -/
def isNumLike (j : Json) : Bool := (jNumQ j).isSome

/-- Python `len` on a JSON value; `none` marks a `TypeError`. -/
def pyLen : Json → Option Nat
  | .str s => some s.length
  | .arr xs => some xs.length
  | .obj fs => some fs.length
  | _ => Option.none

/-- The value survives `v[:3]` followed by `', '.join(str(x) for x in .)`:
strings and lists do, everything else raises. -/
def sliceJoinable : Json → Bool
  | .str _ => true
  | .arr _ => true
  | _ => false

/-- The value survives `[str(x) for x in v]`: strings, lists and dicts are
iterable, everything else raises. -/
def iterableJ : Json → Bool
  | .str _ => true
  | .arr _ => true
  | .obj _ => true
  | _ => false

/-- The fixed fallback object of `_analyze_ai_strategy`'s exception handler
(src/ai_analysis.py, lines 435-444): six empty lists, maturity score 5. -/
def strategyFallback : Json :=
  .obj [("ai_initiatives", .arr []), ("competitive_advantages", .arr []),
        ("revenue_streams", .arr []), ("partnerships", .arr []),
        ("opportunities", .arr []), ("risks", .arr []),
        ("ai_maturity_score", .num 5),
        ("overall_assessment",
         .str "Unable to complete AI analysis at this time.")]

/-- The AI-strategy prompt (lines 376-408) formats `market_cap/1e9` with
`:.1f` and `employees` with `:,`; both raise `TypeError` on non-numeric
values, and nothing else in the prompt construction can raise
(`sanitize_text` is total). -/
def strategyPromptOk (ctx : CompanyContext) : Bool :=
  isNumLike ctx.market_cap && isNumLike ctx.employees

/-- Model of `AIAnalyzer._analyze_ai_strategy` (src/ai_analysis.py, lines 365-444):
any exception inside the `try` (prompt formatting or the LLM call) yields
the fixed fallback object; a response that parses to a truthy value is
returned as is; a falsy parse (in particular a decode failure) yields `{}`. -/
def analyzeAiStrategy (llm : LLMOutcome) (ctx : CompanyContext) : Json :=
  if !strategyPromptOk ctx then strategyFallback
  else
    match llm with
    | .raise => strategyFallback
    | .ok r =>
      let res := parseOpenaiJson r
      if jsonTruthy res then res else Json.obj []

/-- The fixed fallback of `_get_investment_recommendation`'s exception
handler (src/ai_analysis.py, lines 501-507). -/
def recFallback : Json :=
  .obj [("action", .str "HOLD"), ("ai_score", .num 5),
        ("reasoning",
         .str "Unable to complete investment analysis at this time."),
        ("key_catalysts", .arr []), ("risk_factors", .arr [])]

/-- The recommendation prompt (lines 454-484) formats `market_cap/1e9` with
`:.1f`, calls `.get` on the strategy result (raising unless it is a
mapping) and slices/joins three of its list fields. -/
def recPromptOk (ctx : CompanyContext) (strat : Json) : Bool :=
  isNumLike ctx.market_cap &&
  (match strat with
   | .obj fs =>
     sliceJoinable (dictGetD fs "ai_initiatives" (.arr [])) &&
     sliceJoinable (dictGetD fs "competitive_advantages" (.arr [])) &&
     sliceJoinable (dictGetD fs "opportunities" (.arr []))
   | _ => false)

/-- Model of `AIAnalyzer._get_investment_recommendation` (src/ai_analysis.py, lines
446-507): any exception yields the fixed HOLD fallback; otherwise the parse
result is returned verbatim, with no truthiness or shape check. -/
def getInvestmentRecommendation (llm : LLMOutcome) (ctx : CompanyContext)
    (strat : Json) : Json :=
  if !recPromptOk ctx strat then recFallback
  else
    match llm with
    | .raise => recFallback
    | .ok r => parseOpenaiJson r

/-- The fixed fallback of `_generate_ai_story`'s exception handler
(src/ai_analysis.py, lines 598-603). -/
def storyFallback : Json :=
  .obj [("strategy_summary",
         .str "AI strategy analysis not available at this time."),
        ("use_cases", .arr []), ("opportunities", .arr []),
        ("competitive_advantages", .arr [])]

/-- The story prompt (lines 556-578) calls `.get` on the strategy result and
iterates four of its list fields. -/
def storyPromptOk (strat : Json) : Bool :=
  match strat with
  | .obj fs =>
    iterableJ (dictGetD fs "ai_initiatives" (.arr [])) &&
    iterableJ (dictGetD fs "competitive_advantages" (.arr [])) &&
    iterableJ (dictGetD fs "opportunities" (.arr [])) &&
    iterableJ (dictGetD fs "revenue_streams" (.arr []))
  | _ => false

/-- Model of `AIAnalyzer._generate_ai_story` (src/ai_analysis.py, lines 550-603):
any exception yields the fixed story fallback; otherwise the parse result is
returned verbatim. -/
def generateAiStory (llm : LLMOutcome) (strat : Json) : Json :=
  if !storyPromptOk strat then storyFallback
  else
    match llm with
    | .raise => storyFallback
    | .ok r => parseOpenaiJson r

/-- The fixed sector multiplier table of `_calculate_ai_metrics`
(src/ai_analysis.py, lines 516-524). -/
def sectorMultTable : List (String × ℚ) :=
  [("Technology", 3/2), ("Communication Services", 6/5),
   ("Consumer Cyclical", 1), ("Healthcare", 11/10),
   ("Financial Services", 11/10), ("Industrials", 4/5),
   ("Consumer Defensive", 7/10)]

/-- Python `sector_ai_multipliers.get(sector, 0.8)` for a string sector. -/
def sectorMult (s : String) : ℚ := (sectorMultTable.lookup s).getD (4/5)

/-- The table lookup on the raw context sector: strings use the table,
other hashable values miss it and get the 0.8 default, unhashable values
(lists, dicts) raise `TypeError`. -/
def sectorKeyMult : Json → Option ℚ
  | .str s => some (sectorMult s)
  | .num _ => some (4/5)
  | .bool _ => some (4/5)
  | .null => some (4/5)
  | .arr _ => Option.none
  | .obj _ => Option.none

/-- Python `int()` on an exact value: truncation toward zero. -/
def pyTrunc (q : ℚ) : Int := if 0 ≤ q then ⌊q⌋ else ⌈q⌉

/-- Python `round()` to an integer: nearest, ties to even. -/
def roundHalfEven (q : ℚ) : Int :=
  if q - ⌊q⌋ < 1/2 then ⌊q⌋
  else if 1/2 < q - ⌊q⌋ then ⌊q⌋ + 1
  else if ⌊q⌋ % 2 = 0 then ⌊q⌋ else ⌊q⌋ + 1

/-- Python `round(x, 1)`. -/
def roundTo1 (q : ℚ) : ℚ := (roundHalfEven (q * 10) : ℚ) / 10

/-- The body of `_calculate_ai_metrics`'s `try` block (src/ai_analysis.py,
lines 511-539) as the four derived values (rounded exposure, partnership
count, estimated patents, raw maturity score); `none` marks any raised
exception (non-mapping strategy value, unhashable sector, non-numeric score,
unsized list fields). -/
def metricsCoreVals (ctx : CompanyContext) (strat : Json) :
    Option (ℚ × Nat × Int × Json) :=
  match strat with
  | .obj fs =>
    let scoreJ := dictGetD fs "ai_maturity_score" (.num 5)
    match jNumQ scoreJ, sectorKeyMult ctx.sector,
        pyLen (dictGetD fs "ai_initiatives" (.arr [])),
        pyLen (dictGetD fs "partnerships" (.arr [])) with
    | some q, some m, some ni, some np =>
      some (roundTo1 (min 100 (m * q * 2 + (ni : ℚ) * 5)), np,
            max 0 (pyTrunc (q * 10) + (np : Int) * 5), scoreJ)
    | _, _, _, _ => Option.none
  | _ => Option.none

/-- The zeroed fallback of `_calculate_ai_metrics`'s exception handler
(src/ai_analysis.py, lines 543-548). -/
def metricsFallback : Json :=
  .obj [("ai_revenue_exposure", .num 0), ("ai_partnerships", .num 0),
        ("ai_patents", .num 0), ("ai_investment_score", .num 5)]

/-- Model of `AIAnalyzer._calculate_ai_metrics` (src/ai_analysis.py, lines 509-548). -/
def calcAiMetrics (ctx : CompanyContext) (strat : Json) : Json :=
  match metricsCoreVals ctx strat with
  | some (e, np, pt, sj) =>
    .obj [("ai_revenue_exposure", .num e), ("ai_partnerships", .num (np : ℚ)),
          ("ai_patents", .num (pt : ℚ)), ("ai_investment_score", sj)]
  | Option.none => metricsFallback

/-- The top-level default of `_get_default_analysis` (src/ai_analysis.py,
lines 610-633). -/
def defaultAnalysis (now : String) : Json :=
  .obj [("investment_recommendation",
         .obj [("action", .str "HOLD"), ("ai_score", .num 5),
               ("reasoning", .str "AI analysis not available at this time."),
               ("key_catalysts", .arr []), ("risk_factors", .arr [])]),
        ("ai_metrics", metricsFallback),
        ("ai_story",
         .obj [("strategy_summary", .str "AI analysis not available."),
               ("use_cases", .arr []), ("opportunities", .arr []),
               ("competitive_advantages", .arr [])]),
        ("analysis_timestamp", .str now)]

/-- Model of `AIAnalyzer.analyze_ai_potential` (src/ai_analysis.py, lines 85-128).
With the raw info value a mapping, every statement of the `try` body either
is total or sits inside a stage-level guard, so the top-level handler that
returns `_get_default_analysis` (modelled above as `defaultAnalysis`) is
unreachable and the orchestration is total. -/
def analyzeAiPotential (llm : LLMCollab) (symbol : String)
    (info : List (String × Json)) (now : String) : Json :=
  let ctx := prepareCompanyContext symbol info
  let strat := analyzeAiStrategy llm.strategyCall ctx
  let reco := getInvestmentRecommendation llm.recommendationCall ctx strat
  let metrics := calcAiMetrics ctx strat
  let story := generateAiStory llm.storyCall strat
  .obj [("investment_recommendation", reco), ("ai_metrics", metrics),
        ("ai_story", story), ("analysis_timestamp", .str now)]

/-- Section `overview` of `_get_default_401k_benefits` (src/ai_analysis.py,
lines 297-304). -/
def benefOverview : Json :=
  .obj [("match_percentage", .num 0), ("max_match_salary_percent", .num 0),
        ("vesting_period", .str "Unknown"), ("roth_available", .bool false),
        ("company_size", .str "Unknown"), ("industry_rating", .str "Unknown")]

/-- Section `recommendation` of `_get_default_401k_benefits` (lines 305-310). -/
def benefRecommendation : Json :=
  .obj [("optimization_score", .num 5),
        ("primary_advice", .str "401K analysis temporarily unavailable."),
        ("key_actions",
         .arr [.str "Contribute at least enough to get company match",
               .str "Review plan documents"]),
        ("urgency_level", .str "medium")]

/-- Section `contribution_strategy` of `_get_default_401k_benefits`
(lines 311-316). -/
def benefContribution : Json :=
  .obj [("recommended_contribution_percent", .num 10),
        ("annual_savings_potential", .str "Not calculated"),
        ("tax_optimization", .str "Standard tax-deferred benefits apply"),
        ("recommended_actions",
         .arr [.str "Start with company match",
               .str "Increase contributions annually"])]

/-- Section `roth_analysis` of `_get_default_401k_benefits` (lines 317-322):
the documented default roth substructure. -/
def benefRoth : Json :=
  .obj [("recommendation", .str "Traditional"),
        ("reasoning", .str "Default recommendation for tax-deferred savings"),
        ("age_considerations",
         .str "Younger employees may benefit from Roth options"),
        ("tax_bracket_impact",
         .str "Consider current vs expected future tax rates")]

/-- Section `fund_options` of `_get_default_401k_benefits` (lines 323-328). -/
def benefFunds : Json :=
  .obj [("fund_categories",
         .arr [.str "Target Date Funds", .str "Index Funds", .str "Bond Funds"]),
        ("recommended_funds",
         .arr [.str "Low-cost index funds",
               .str "Target-date funds for simplicity"]),
        ("expense_ratio_analysis",
         .str "Look for funds with expense ratios under 0.5%"),
        ("diversification_advice",
         .str "Mix of stocks, bonds, and international exposure")]

/-- Section `additional_benefits` of `_get_default_401k_benefits`
(lines 329-334). -/
def benefAdditional : Json :=
  .obj [("other_benefits", .arr [.str "Standard 401k benefits"]),
        ("financial_wellness_perks", .arr [.str "Online planning tools"]),
        ("catch_up_contributions",
         .str "Available for employees 50 and older"),
        ("loan_provisions", .str "Check with HR for loan availability")]

/-- Model of `_get_default_401k_benefits` (src/ai_analysis.py, lines 294-335). -/
def benefitsFallback : Json :=
  .obj [("overview", benefOverview), ("recommendation", benefRecommendation),
        ("contribution_strategy", benefContribution),
        ("roth_analysis", benefRoth), ("fund_options", benefFunds),
        ("additional_benefits", benefAdditional)]

/-- Model of `_get_default_401k_analysis` (src/ai_analysis.py, lines 250-292), the
default returned by `analyze_company_401k`'s own exception handler. -/
def default401kAnalysis (now : String) : Json :=
  .obj [("overview", benefOverview),
        ("recommendation",
         .obj [("optimization_score", .num 5),
               ("primary_advice",
                .str "401K analysis not available at this time."),
               ("key_actions", .arr []), ("urgency_level", .str "medium")]),
        ("contribution_strategy",
         .obj [("recommended_contribution_percent", .num 10),
               ("annual_savings_potential", .str "Not calculated"),
               ("tax_optimization", .str "Consult with financial advisor"),
               ("recommended_actions",
                .arr [.str "Contribute enough to get company match"])]),
        ("roth_analysis",
         .obj [("recommendation", .str "Traditional"),
               ("reasoning", .str "Analysis not available"),
               ("age_considerations",
                .str "Consider your current tax bracket"),
               ("tax_bracket_impact", .str "Consult tax professional")]),
        ("fund_options",
         .obj [("fund_categories", .arr []), ("recommended_funds", .arr []),
               ("expense_ratio_analysis", .str "Unknown"),
               ("diversification_advice",
                .str "Diversify investments across asset classes")]),
        ("additional_benefits",
         .obj [("other_benefits", .arr []),
               ("financial_wellness_perks", .arr []),
               ("catch_up_contributions", .str "Check if available for 50+"),
               ("loan_provisions", .str "Check plan details")]),
        ("analysis_timestamp", .str now)]

/-- Model of `AIAnalyzer._analyze_401k_benefits` (src/ai_analysis.py, lines 160-248):
the prompt interpolates only the sanitized company name and cannot raise, so
an exception means the LLM call (or response access) raised, yielding the
static benefits default; a truthy parse is returned as is and a falsy parse
yields `{}`. -/
def analyze401kBenefits (llm : LLMOutcome) : Json :=
  match llm with
  | .raise => benefitsFallback
  | .ok r =>
    let res := parseOpenaiJson r
    if jsonTruthy res then res else Json.obj []

/-- The six named sections of a 401k analysis result. -/
def sections401k : List String :=
  ["overview", "recommendation", "contribution_strategy", "roth_analysis",
   "fund_options", "additional_benefits"]

/-- Model of `AIAnalyzer.analyze_company_401k` (src/ai_analysis.py, lines 130-158):
each section is `analysis_result.get(key, {})`; when the stage value is not
a mapping the first `.get` raises and the handler returns
`_get_default_401k_analysis`. -/
def analyzeCompany401k (llm : LLMOutcome) (now : String) : Json :=
  match analyze401kBenefits llm with
  | .obj fs =>
    .obj [("overview", dictGetD fs "overview" (.obj [])),
          ("recommendation", dictGetD fs "recommendation" (.obj [])),
          ("contribution_strategy",
           dictGetD fs "contribution_strategy" (.obj [])),
          ("roth_analysis", dictGetD fs "roth_analysis" (.obj [])),
          ("fund_options", dictGetD fs "fund_options" (.obj [])),
          ("additional_benefits", dictGetD fs "additional_benefits" (.obj [])),
          ("analysis_timestamp", .str now)]
  | _ => default401kAnalysis now

/-- Modelled from the spec: `estimated_patents = max(0, round(
ai_maturity_score * 10) + count(partnerships) * 5)` (spec sections 4.3 and
8), reading `round` as Python's `round` (nearest, ties to even).  Kept
separate from the code's own formula, which truncates with `int()`, so the
two can be compared. -/
def specEstimatedPatents (score : ℚ) (partnerships : Nat) : Int :=
  max 0 (roundHalfEven (score * 10) + (partnerships : Int) * 5)

/-- The credential `"sk-abc—def"` from the spec's test list. -/
def skEmDash : PyText := [115, 107, 45, 97, 98, 99, 0x2014, 100, 101, 102]

/-- The credential `"sk-日本語"` from the spec's test list. -/
def skJapanese : PyText := [115, 107, 45, 0x65E5, 0x672C, 0x8A9E]

/-- The credential `"sk-valid123"` from the spec's test list. -/
def skValid : PyText := [115, 107, 45, 118, 97, 108, 105, 100, 49, 50, 51]

/-- A company context built from an empty info mapping: every field is its
documented default ("Unknown" sector, zero market cap and head count). -/
def ctxDefault : CompanyContext := prepareCompanyContext "TEST" []

/-- A transport response whose text body is not valid JSON. -/
def respMalformed : LLMResponse := ⟨Option.none, some "not json"⟩

/-- A collaborator whose strategy and story calls raise while the
recommendation call answers with a well-formed object lacking `action`. -/
def llmMissingAction : LLMCollab :=
  ⟨.raise, .ok ⟨Option.none, some "\x7b\"ai_score\": 3\x7d"⟩, .raise⟩

/-- An info mapping carrying only a numeric market cap. -/
def infoBasic : List (String × Json) := [("marketCap", .num 1000000000)]

/-- A strategy result with the fractional maturity score 5.06 and two
partnerships. -/
def stratFractional : Json :=
  .obj [("ai_maturity_score", .num (253/50)),
        ("partnerships", .arr [.str "a", .str "b"])]

/-- An info mapping declaring the Technology sector. -/
def infoTech : List (String × Json) := [("sector", .str "Technology")]

/-- The document assembled by `analyze_company_401k` around the static
benefits default: the six default sections plus the timestamp. -/
def benefitsDoc (now : String) : Json :=
  .obj [("overview", benefOverview), ("recommendation", benefRecommendation),
        ("contribution_strategy", benefContribution),
        ("roth_analysis", benefRoth), ("fund_options", benefFunds),
        ("additional_benefits", benefAdditional),
        ("analysis_timestamp", .str now)]

theorem isAsciiL_append (s t : PyText) :
    isAsciiL (s ++ t) = (isAsciiL s && isAsciiL t) := by
  simp [isAsciiL]

theorem hexDigit_lt (m : Nat) : hexDigit (m % 16) < 128 := by
  have h : m % 16 < 16 := Nat.mod_lt _ (by norm_num)
  unfold hexDigit
  split <;> omega

theorem isAsciiL_hexPad (w c : Nat) : isAsciiL (hexPad w c) = true := by
  simp only [isAsciiL, hexPad, List.all_eq_true, List.mem_map, List.mem_range]
  rintro x ⟨i, -, rfl⟩
  simpa using hexDigit_lt _

theorem isAsciiL_backslashEscape (c : Nat) :
    isAsciiL (backslashEscape c) = true := by
  unfold backslashEscape
  split
  · simpa [isAsciiL]
  split
  · simpa [isAsciiL] using isAsciiL_hexPad 2 c
  split
  · simpa [isAsciiL] using isAsciiL_hexPad 4 c
  · simpa [isAsciiL] using isAsciiL_hexPad 8 c

theorem isAsciiL_backslashReplace (s : PyText) :
    isAsciiL (backslashReplace s) = true := by
  induction s with
  | nil => rfl
  | cons c t ih =>
    simp only [backslashReplace, List.flatMap_cons] at *
    rw [isAsciiL_append, ih, isAsciiL_backslashEscape]
    rfl

theorem backslashEscape_ascii (c : Nat) (hc : c < 128) :
    backslashEscape c = [c] := by
  unfold backslashEscape
  rw [if_pos hc]

theorem backslashReplace_ascii_id (s : PyText) (hs : isAsciiL s = true) :
    backslashReplace s = s := by
  induction s with
  | nil => rfl
  | cons c t ih =>
    simp only [isAsciiL, List.all_cons, Bool.and_eq_true, decide_eq_true_eq]
      at hs
    simp only [backslashReplace, List.flatMap_cons] at *
    rw [backslashEscape_ascii c hs.1, ih hs.2]
    rfl

theorem replaceChar_ascii_id (u : Nat) (r s : PyText) (hu : 128 ≤ u)
    (hs : isAsciiL s = true) : replaceChar u r s = s := by
  induction s with
  | nil => rfl
  | cons c t ih =>
    simp only [isAsciiL, List.all_cons, Bool.and_eq_true, decide_eq_true_eq]
      at hs
    simp only [replaceChar, List.flatMap_cons] at *
    rw [if_neg (by omega), ih hs.2]
    rfl

theorem applyReplacements_ascii_id (s : PyText) (hs : isAsciiL s = true) :
    applyReplacements s = s := by
  simp only [applyReplacements, replacementTable, List.foldl]
  rw [replaceChar_ascii_id 0x2014 [45] s (by norm_num) hs,
    replaceChar_ascii_id 0x2013 [45] s (by norm_num) hs,
    replaceChar_ascii_id 0x2018 [39] s (by norm_num) hs,
    replaceChar_ascii_id 0x2019 [39] s (by norm_num) hs,
    replaceChar_ascii_id 0x201C [34] s (by norm_num) hs,
    replaceChar_ascii_id 0x201D [34] s (by norm_num) hs,
    replaceChar_ascii_id 0x2026 [46, 46, 46] s (by norm_num) hs,
    replaceChar_ascii_id 0x00A0 [32] s (by norm_num) hs]

/-- C1: for every Unicode input x (including mixed scripts and em/en
dashes), `sanitize(sanitize(x)) == sanitize(x)`, and the output of
`sanitize` always decodes as pure ASCII.  NFKC normalization enters only
through the Unicode-standard fact that it fixes ASCII text, taken as the
hypothesis `hn`. -/
theorem c1_sanitize_idempotent_ascii (nfkc : PyText → PyText)
    (hn : ∀ s, isAsciiL s = true → nfkc s = s) (x : PyVal) :
    sanitize_text nfkc (.str (sanitize_text nfkc x)) = sanitize_text nfkc x ∧
      isAsciiL (sanitize_text nfkc x) = true := by
  have hy : isAsciiL (sanitize_text nfkc x) = true := by
    unfold sanitize_text
    split
    · rfl
    · exact isAsciiL_backslashReplace _
  refine ⟨?_, hy⟩
  by_cases hE : sanitize_text nfkc x = []
  · rw [hE]
    rfl
  · have hfalse : pyFalsy (.str (sanitize_text nfkc x)) = false := by
      simpa [pyFalsy, List.isEmpty_iff] using hE
    conv_lhs => rw [sanitize_text]
    rw [hfalse, if_neg (by simp)]
    have hps : pyStrOf (.str (sanitize_text nfkc x)) = sanitize_text nfkc x :=
      rfl
    rw [hps, hn _ hy, applyReplacements_ascii_id _ hy,
      backslashReplace_ascii_id _ hy]

theorem c1_witness :
    (∀ s : PyText, isAsciiL s = true → id s = s) ∧
      (sanitize_text id (.str (sanitize_text id (.str [0x2014, 0x65E5])))
          = sanitize_text id (.str [0x2014, 0x65E5]) ∧
        isAsciiL (sanitize_text id (.str [0x2014, 0x65E5])) = true) :=
  ⟨fun _ _ => rfl, c1_sanitize_idempotent_ascii id (fun _ _ => rfl) _⟩

/-- C10: for every falsy input — `None`, the empty string, or numeric zero —
`sanitize` returns the empty string rather than raising or returning a
stringified form of the input. -/
theorem c10_sanitize_falsy (nfkc : PyText → PyText) :
    sanitize_text nfkc PyVal.none = [] ∧
      sanitize_text nfkc (.str []) = [] ∧
      sanitize_text nfkc (.int 0) = [] :=
  ⟨rfl, rfl, rfl⟩

/-- C2: at analyzer construction, a credential containing an em dash or en
dash raises the dash-specific fatal error; a credential containing any other
non-ASCII character (and no dash) raises the generic non-ASCII fatal error;
a nonempty pure-ASCII credential such as `"sk-valid123"` constructs
successfully; a missing credential raises a fatal error; and the spec's
three concrete credentials behave exactly so. -/
theorem c2_credential_validation :
    (∀ k : PyText, 0x2014 ∈ k ∨ 0x2013 ∈ k →
      initAnalyzer (some k) = .error .dashInKey) ∧
    (∀ k : PyText, (∃ c ∈ k, 128 ≤ c) → 0x2014 ∉ k → 0x2013 ∉ k →
      initAnalyzer (some k) = .error .nonAsciiKey) ∧
    (∀ k : PyText, k ≠ [] → (∀ c ∈ k, c < 128) →
      initAnalyzer (some k) = .ok ()) ∧
    initAnalyzer Option.none = .error .notSet ∧
    initAnalyzer (some skEmDash) = .error .dashInKey ∧
    initAnalyzer (some skJapanese) = .error .nonAsciiKey ∧
    initAnalyzer (some skValid) = .ok () := by
  refine ⟨?_, ?_, ?_, rfl, rfl, rfl, rfl⟩
  · intro k hk
    have hne : k.isEmpty = false := by
      rcases hk with h | h <;>
        simp [List.isEmpty_iff, List.ne_nil_of_mem h]
    have hna : isAsciiL k = false := by
      rw [isAsciiL, List.all_eq_false]
      rcases hk with h | h
      · exact ⟨_, h, by norm_num⟩
      · exact ⟨_, h, by norm_num⟩
    simp [initAnalyzer, hne, hna, hk]
  · intro k hbig hd1 hd2
    obtain ⟨c, hc, hc128⟩ := hbig
    have hne : k.isEmpty = false := by
      simp [List.isEmpty_iff, List.ne_nil_of_mem hc]
    have hna : isAsciiL k = false := by
      rw [isAsciiL, List.all_eq_false]
      exact ⟨c, hc, by simpa using hc128⟩
    simp [initAnalyzer, hne, hna, hd1, hd2]
  · intro k hne hascii
    have hne' : k.isEmpty = false := by simp [List.isEmpty_iff, hne]
    have ha : isAsciiL k = true := by
      rw [isAsciiL, List.all_eq_true]
      intro c hc
      simpa using hascii c hc
    simp [initAnalyzer, hne', ha]

theorem c2_witness :
    initAnalyzer (some [0x2013]) = .error .dashInKey ∧
      initAnalyzer (some [115, 200]) = .error .nonAsciiKey ∧
      initAnalyzer (some [104, 105]) = .ok () :=
  ⟨c2_credential_validation.1 _ (Or.inr (by simp)),
   c2_credential_validation.2.1 _ ⟨200, by simp, by norm_num⟩
     (by decide) (by decide),
   c2_credential_validation.2.2.1 _ (by simp) (by decide)⟩

theorem parseVal_ctrl_none (n : Nat) (c : Char) (rest : List Char)
    (h : c = Char.ofNat 11 ∨ c = Char.ofNat 12) :
    parseVal n (c :: rest) = Option.none := by
  cases n with
  | zero => rfl
  | succ m => rcases h with rfl | rfl <;> rfl

theorem skipWs_of_all_strip (l : List Char)
    (h : ∀ c ∈ l, stripWsChar c = true) :
    skipWs l = [] ∨ ∃ c r, skipWs l = c :: r ∧
      (c = Char.ofNat 11 ∨ c = Char.ofNat 12) := by
  induction l with
  | nil => exact Or.inl rfl
  | cons c t ih =>
    rw [skipWs, List.dropWhile_cons]
    by_cases hc : jsonWsChar c = true
    · rw [if_pos hc]
      exact ih (fun d hd => h d (List.mem_cons_of_mem _ hd))
    · rw [if_neg hc]
      refine Or.inr ⟨c, t, rfl, ?_⟩
      have hs := h c (List.mem_cons_self _ _)
      simp only [stripWsChar, Bool.or_eq_true, beq_iff_eq] at hs
      simp only [jsonWsChar, Bool.or_eq_true, beq_iff_eq, not_or] at hc
      tauto

theorem jsonLoads_of_all_strip (s : String)
    (h : ∀ c ∈ s.data, stripWsChar c = true) :
    jsonLoads s = Option.none := by
  rcases skipWs_of_all_strip s.data h with hskip | ⟨c, r, hskip, hc⟩
  · rw [jsonLoads, hskip]
    rfl
  · rw [jsonLoads, hskip, parseVal_ctrl_none _ _ _ hc]

theorem pyStrip_empty_all (s : String) (h : (pyStrip s).isEmpty = true) :
    ∀ c ∈ s.data, stripWsChar c = true := by
  rw [pyStrip, List.isEmpty_iff, List.reverse_eq_nil_iff,
    List.dropWhile_eq_nil_iff] at h
  have hA : ∀ c ∈ s.data.dropWhile stripWsChar, stripWsChar c = true := by
    intro c hc
    exact h c (List.mem_reverse.mpr hc)
  intro c hc
  rw [← List.takeWhile_append_dropWhile (p := stripWsChar) (l := s.data)]
    at hc
  rcases List.mem_append.mp hc with hc | hc
  · exact List.mem_takeWhile_imp hc
  · exact hA c hc

/-- C8: for every remote response, the parser returns the pre-parsed
structured payload when the transport provides one; otherwise a text body
that is well-formed JSON yields the equivalent parsed value, and a malformed
or missing body yields an empty mapping (the parser is total, so it never
raises). -/
theorem c8_parser_roundtrip (r : LLMResponse) :
    (∀ p, r.parsed = some p → parseOpenaiJson r = p) ∧
    (∀ s v, r.parsed = Option.none → r.content = some s →
      jsonLoads s = some v → parseOpenaiJson r = v) ∧
    (∀ s, r.parsed = Option.none → r.content = some s →
      jsonLoads s = Option.none → parseOpenaiJson r = Json.obj []) ∧
    (r.parsed = Option.none → r.content = Option.none →
      parseOpenaiJson r = Json.obj []) := by
  obtain ⟨pp, cc⟩ := r
  refine ⟨?_, ?_, ?_, ?_⟩
  · rintro p rfl
    rfl
  · rintro s v rfl rfl hv
    have hne : (pyStrip s).isEmpty = false := by
      cases hie : (pyStrip s).isEmpty
      · rfl
      · rw [jsonLoads_of_all_strip s (pyStrip_empty_all s hie)] at hv
        exact absurd hv (by simp)
    simp [parseOpenaiJson, hne, hv]
  · rintro s rfl rfl hv
    cases hie : (pyStrip s).isEmpty <;> simp [parseOpenaiJson, hie, hv]
  · rintro rfl rfl
    rfl

theorem c8_witness :
    parseOpenaiJson ⟨some (Json.num 7), some "ignored"⟩ = Json.num 7 ∧
      parseOpenaiJson ⟨Option.none, some "\x7b\"a\": 1\x7d"⟩
        = Json.obj [("a", Json.num 1)] ∧
      parseOpenaiJson ⟨Option.none, some "not json"⟩ = Json.obj [] ∧
      parseOpenaiJson ⟨Option.none, Option.none⟩ = Json.obj [] :=
  ⟨(c8_parser_roundtrip _).1 _ rfl,
   (c8_parser_roundtrip _).2.1 _ _ rfl rfl (by decide),
   (c8_parser_roundtrip _).2.2.1 _ rfl rfl (by decide),
   (c8_parser_roundtrip _).2.2.2 rfl rfl⟩

theorem analyzeAiStrategy_raise (ctx : CompanyContext) :
    analyzeAiStrategy .raise ctx = strategyFallback := by
  cases h : strategyPromptOk ctx <;> simp [analyzeAiStrategy, h]

theorem getInvestmentRecommendation_raise (ctx : CompanyContext)
    (strat : Json) :
    getInvestmentRecommendation .raise ctx strat = recFallback := by
  cases h : recPromptOk ctx strat <;> simp [getInvestmentRecommendation, h]

theorem metrics_of_strategyFallback (ctx : CompanyContext) :
    objGet (calcAiMetrics ctx strategyFallback) "ai_investment_score"
      = some (.num 5) := by
  obtain ⟨sym, nm, sec, ind, bs, mc, emp, rev, web, cty⟩ := ctx
  cases sec <;> rfl

/-- C7 counterexample: with the default company context, a transport
response whose body is not valid JSON makes `_analyze_ai_strategy` return
the empty mapping `{}`, not the fixed six-empty-list, score-5 fallback
object the claim requires for malformed responses. -/
theorem c7_counterexample :
    analyzeAiStrategy (.ok respMalformed) ctxDefault = Json.obj [] ∧
      Json.obj [] ≠ strategyFallback := by
  exact ⟨rfl, by decide⟩

/-- C7 (amended): any exception in the AI-strategy stage (a raising LLM
call, or a prompt-formatting failure) makes the stage return the fixed
fallback object with all six lists empty and `ai_maturity_score` 5; a
response whose body fails JSON parsing instead makes the stage return an
empty mapping; in both cases the stage returns normally, so the pipeline
continues. -/
theorem c7_strategy_stage_fallbacks :
    (∀ ctx, analyzeAiStrategy .raise ctx = strategyFallback) ∧
    (∀ ctx, strategyPromptOk ctx = false →
      ∀ llm, analyzeAiStrategy llm ctx = strategyFallback) ∧
    (∀ ctx r, strategyPromptOk ctx = true → parseOpenaiJson r = Json.obj [] →
      analyzeAiStrategy (.ok r) ctx = Json.obj []) := by
  refine ⟨analyzeAiStrategy_raise, ?_, ?_⟩
  · intro ctx h llm
    cases llm <;> simp [analyzeAiStrategy, h]
  · intro ctx r hok hp
    simp [analyzeAiStrategy, hok, hp, jsonTruthy]

theorem c7_witness :
    analyzeAiStrategy .raise ctxDefault = strategyFallback ∧
      analyzeAiStrategy (.ok ⟨Option.none, some "\x5b1, 2"⟩) ctxDefault
        = Json.obj [] :=
  ⟨c7_strategy_stage_fallbacks.1 _,
   c7_strategy_stage_fallbacks.2.2 _ _ (by decide) (by decide)⟩

/-- C3: if the LLM collaborator raises — modelling the spec's failing
collaborator as one whose calls all raise — `analyze_ai_potential` still
returns a complete `AnalysisResult` carrying all four top-level keys, with
`investment_recommendation.action == "HOLD"` and
`ai_metrics.ai_investment_score == 5`, for every symbol and raw info
mapping. -/
theorem c3_strategy_raise_still_complete (symbol now : String)
    (info : List (String × Json)) :
    getIn (analyzeAiPotential ⟨.raise, .raise, .raise⟩ symbol info now)
        "investment_recommendation" "action" = some (.str "HOLD") ∧
    getIn (analyzeAiPotential ⟨.raise, .raise, .raise⟩ symbol info now)
        "ai_metrics" "ai_investment_score" = some (.num 5) ∧
    (objGet (analyzeAiPotential ⟨.raise, .raise, .raise⟩ symbol info now)
        "investment_recommendation").isSome = true ∧
    (objGet (analyzeAiPotential ⟨.raise, .raise, .raise⟩ symbol info now)
        "ai_metrics").isSome = true ∧
    (objGet (analyzeAiPotential ⟨.raise, .raise, .raise⟩ symbol info now)
        "ai_story").isSome = true ∧
    (objGet (analyzeAiPotential ⟨.raise, .raise, .raise⟩ symbol info now)
        "analysis_timestamp").isSome = true := by
  refine ⟨?_, ?_, rfl, rfl, rfl, rfl⟩
  · have h1 : objGet
        (analyzeAiPotential ⟨.raise, .raise, .raise⟩ symbol info now)
        "investment_recommendation"
        = some (getInvestmentRecommendation .raise
            (prepareCompanyContext symbol info)
            (analyzeAiStrategy .raise (prepareCompanyContext symbol info)))
        := rfl
    rw [getIn, h1, getInvestmentRecommendation_raise]
    rfl
  · have h2 : objGet
        (analyzeAiPotential ⟨.raise, .raise, .raise⟩ symbol info now)
        "ai_metrics"
        = some (calcAiMetrics (prepareCompanyContext symbol info)
            (analyzeAiStrategy .raise (prepareCompanyContext symbol info)))
        := rfl
    rw [getIn, h2, analyzeAiStrategy_raise]
    exact metrics_of_strategyFallback _

theorem calcAiMetrics_keys (ctx : CompanyContext) (strat : Json) :
    jsonKeys (calcAiMetrics ctx strat)
      = ["ai_revenue_exposure", "ai_partnerships", "ai_patents",
         "ai_investment_score"] := by
  rw [calcAiMetrics]
  rcases h : metricsCoreVals ctx strat with _ | ⟨e, np, pt, sj⟩ <;>
    simp [jsonKeys, metricsFallback]

/-- C9 counterexample: with a collaborator whose recommendation call
answers `{"ai_score": 3}` (well-formed JSON with no `action` field), the
final result's `investment_recommendation` is that object verbatim, so the
`action` key is missing — no statically defined default is substituted. -/
theorem c9_counterexample :
    getIn (analyzeAiPotential llmMissingAction "TEST" infoBasic "t0")
        "investment_recommendation" "action" = Option.none ∧
      objGet (analyzeAiPotential llmMissingAction "TEST" infoBasic "t0")
        "investment_recommendation"
        = some (Json.obj [("ai_score", Json.num 3)]) := by
  decide

/-- C9 (amended): for every stock-mode invocation and every upstream LLM
behaviour, the final result always carries exactly the four documented
top-level keys, and `ai_metrics` always carries exactly its four documented
fields; but `investment_recommendation` and `ai_story` are the parsed
response objects verbatim when their stage call succeeds, so fields inside
them can be missing and response-supplied numeric fields are not clamped. -/
theorem c9_result_always_shaped (llm : LLMCollab) (symbol now : String)
    (info : List (String × Json)) :
    jsonKeys (analyzeAiPotential llm symbol info now)
      = ["investment_recommendation", "ai_metrics", "ai_story",
         "analysis_timestamp"] ∧
    ∃ m, objGet (analyzeAiPotential llm symbol info now) "ai_metrics"
        = some m ∧
      jsonKeys m = ["ai_revenue_exposure", "ai_partnerships", "ai_patents",
        "ai_investment_score"] :=
  ⟨rfl, ⟨_, rfl, calcAiMetrics_keys _ _⟩⟩

/-- C5 counterexample: at the fractional maturity score 5.06 with two
partnerships, the code computes `max(0, int(5.06*10) + 2*5) = 60` (Python
`int()` truncates), while the claim's formula with `round` gives
`max(0, round(50.6) + 10) = 61`. -/
theorem c5_counterexample :
    objGet (calcAiMetrics ctxDefault stratFractional) "ai_patents"
        = some (.num 60) ∧
      specEstimatedPatents (253/50) 2 = 61 ∧
      some (Json.num 60) ≠ some (Json.num ((61 : ℤ) : ℚ)) := by
  decide

/-- C5 (amended): for every strategy output whose maturity score is numeric
and whose list fields have a length (so the stage does not fall back to the
zeroed metrics), `ai_patents` equals
`max(0, int(ai_maturity_score * 10) + count(partnerships) * 5)` where `int`
truncates toward zero; this agrees with the claim's `round` whenever
`ai_maturity_score * 10` is an integer, so score 6 with 2 partnerships still
yields 70. -/
theorem c5_patents_formula (ctx : CompanyContext)
    (fs : List (String × Json)) (q : ℚ) (np : Nat)
    (hq : jNumQ (dictGetD fs "ai_maturity_score" (.num 5)) = some q)
    (hm : (sectorKeyMult ctx.sector).isSome = true)
    (hni : (pyLen (dictGetD fs "ai_initiatives" (.arr []))).isSome = true)
    (hnp : pyLen (dictGetD fs "partnerships" (.arr [])) = some np) :
    objGet (calcAiMetrics ctx (.obj fs)) "ai_patents"
      = some (.num ((max 0 (pyTrunc (q * 10) + (np : ℤ) * 5) : ℤ) : ℚ)) := by
  obtain ⟨m, hm'⟩ := Option.isSome_iff_exists.mp hm
  obtain ⟨ni, hni'⟩ := Option.isSome_iff_exists.mp hni
  simp only [calcAiMetrics, metricsCoreVals, hq, hm', hni', hnp]
  rfl

theorem c5_witness :
    objGet (calcAiMetrics ctxDefault
        (.obj [("ai_maturity_score", .num 6),
               ("partnerships", .arr [.str "p1", .str "p2"])])) "ai_patents"
        = some (.num ((max 0 (pyTrunc ((6 : ℚ) * 10) + (2 : ℤ) * 5) : ℤ) : ℚ))
      ∧ ((max 0 (pyTrunc ((6 : ℚ) * 10) + (2 : ℤ) * 5) : ℤ) : ℚ) = 70 :=
  ⟨c5_patents_formula ctxDefault _ 6 2 (by decide) (by decide) (by decide)
     (by decide),
   by decide⟩

/-- C6: for every company context with a string sector and every strategy
output whose fields are well-typed (numeric score, list initiatives, sized
partnerships), `ai_revenue_exposure` equals
`min(100, m * ai_maturity_score * 2 + count(ai_initiatives) * 5)` rounded
to one decimal, where `m` is the fixed sector-table value with default 0.8;
and the table carries exactly the documented seven entries. -/
theorem c6_revenue_exposure_formula (ctx : CompanyContext)
    (fs : List (String × Json)) (s : String) (q : ℚ) (inits : List Json)
    (np : Nat)
    (hsec : ctx.sector = .str s)
    (hq : jNumQ (dictGetD fs "ai_maturity_score" (.num 5)) = some q)
    (hin : dictGetD fs "ai_initiatives" (.arr []) = .arr inits)
    (hnp : pyLen (dictGetD fs "partnerships" (.arr [])) = some np) :
    objGet (calcAiMetrics ctx (.obj fs)) "ai_revenue_exposure"
        = some (.num (roundTo1 (min 100
            (sectorMult s * q * 2 + (inits.length : ℚ) * 5)))) ∧
      sectorMult "Technology" = 3/2 ∧
      sectorMult "Communication Services" = 6/5 ∧
      sectorMult "Consumer Cyclical" = 1 ∧
      sectorMult "Healthcare" = 11/10 ∧
      sectorMult "Financial Services" = 11/10 ∧
      sectorMult "Industrials" = 4/5 ∧
      sectorMult "Consumer Defensive" = 7/10 ∧
      (∀ t : String, t ∉ sectorMultTable.map Prod.fst →
        sectorMult t = 4/5) := by
  refine ⟨?_, by decide, by decide, by decide, by decide, by decide,
    by decide, by decide, ?_⟩
  · have hni' : pyLen (dictGetD fs "ai_initiatives" (.arr []))
        = some inits.length := by
      rw [hin]
      rfl
    simp only [calcAiMetrics, metricsCoreVals, hq, hsec, sectorKeyMult,
      hni', hnp]
    rfl
  · intro t ht
    rw [sectorMult, List.lookup_eq_none_iff.mpr ?_]
    · rfl
    · intro a ha
      have hne : t ≠ a.1 :=
        fun h => ht (h ▸ List.mem_map_of_mem Prod.fst ha)
      simpa [bne_iff_ne] using hne

theorem c6_witness :
    objGet (calcAiMetrics (prepareCompanyContext "TEST" infoTech)
        (.obj [("ai_maturity_score", .num 8),
               ("ai_initiatives", .arr [.str "a", .str "b", .str "c"])]))
        "ai_revenue_exposure"
        = some (.num (roundTo1 (min 100
            (sectorMult "Technology" * 8 * 2 + (3 : ℚ) * 5)))) ∧
      roundTo1 (min 100 (sectorMult "Technology" * 8 * 2 + (3 : ℚ) * 5))
        = 39 :=
  ⟨((c6_revenue_exposure_formula (prepareCompanyContext "TEST" infoTech) _
      "Technology" 8 [.str "a", .str "b", .str "c"] 0 (by decide) (by decide)
      (by decide) (by decide)).1),
   by decide⟩

/-- C4 counterexample: a parsed 401k response that carries `overview` but no
`roth_analysis` key yields an empty mapping for `roth_analysis`, not the
documented default substructure. -/
theorem c4_counterexample :
    objGet (analyzeCompany401k
        (.ok ⟨some (.obj [("overview", .obj [("match_percentage", .num 50)])]),
          Option.none⟩) "t0") "roth_analysis" = some (Json.obj []) ∧
      Json.obj [] ≠ benefRoth := by
  decide

theorem analyze401kBenefits_parsed (fs : List (String × Json)) :
    analyze401kBenefits (.ok ⟨some (.obj fs), Option.none⟩) = .obj fs := by
  cases fs <;> rfl

/-- C4 (amended): in 401k mode, for every parsed response mapping, a
section key present in the response passes through unmodified, while a
missing `roth_analysis` key (like any missing section) yields an empty
mapping for that section rather than the default substructure; an exception
in the stage returns the full static default benefits document, while an
empty parse yields a document whose six sections are all empty mappings. -/
theorem c4_sections_passthrough (now : String)
    (fs : List (String × Json)) :
    (lookupJ fs "roth_analysis" = Option.none →
      objGet (analyzeCompany401k (.ok ⟨some (.obj fs), Option.none⟩) now)
        "roth_analysis" = some (Json.obj [])) ∧
    (∀ k v, k ∈ sections401k → lookupJ fs k = some v →
      objGet (analyzeCompany401k (.ok ⟨some (.obj fs), Option.none⟩) now) k
        = some v) ∧
    analyzeCompany401k .raise now = benefitsDoc now ∧
    analyzeCompany401k (.ok ⟨some (.obj []), Option.none⟩) now
      = .obj [("overview", .obj []), ("recommendation", .obj []),
              ("contribution_strategy", .obj []),
              ("roth_analysis", .obj []), ("fund_options", .obj []),
              ("additional_benefits", .obj []),
              ("analysis_timestamp", .str now)] := by
  refine ⟨?_, ?_, rfl, rfl⟩
  · intro h
    simp only [analyzeCompany401k, analyze401kBenefits_parsed]
    show some (dictGetD fs "roth_analysis" (.obj [])) = some (Json.obj [])
    rw [dictGetD, h]
    rfl
  · intro k v hk hv
    simp only [sections401k, List.mem_cons, List.not_mem_nil, or_false]
      at hk
    simp only [analyzeCompany401k, analyze401kBenefits_parsed]
    rcases hk with rfl | rfl | rfl | rfl | rfl | rfl <;>
      · show some (dictGetD fs _ (.obj [])) = some v
        rw [dictGetD, hv]
        rfl

theorem c4_witness :
    objGet (analyzeCompany401k (.ok ⟨some (.obj [("overview", .num 1)]),
        Option.none⟩) "t1") "roth_analysis" = some (Json.obj []) ∧
      objGet (analyzeCompany401k (.ok ⟨some (.obj [("overview", .num 1)]),
        Option.none⟩) "t1") "overview" = some (.num 1) ∧
      analyzeCompany401k .raise "t1" = benefitsDoc "t1" :=
  ⟨(c4_sections_passthrough "t1" _).1 (by decide),
   (c4_sections_passthrough "t1" _).2.1 "overview" _ (by decide) (by decide),
   (c4_sections_passthrough "t1" []).2.2.1⟩

end AIInvest
